import Mathlib

/-!
Verification development for the Keira AI issue-triage scripts of the Keira repository
(`scripts/process_ai_issue.py` and `.github/scripts/ai_issue_analyze.py`).

The Python code is shallowly embedded: YAML/JSON data becomes the `PyVal`
type, the external JSON parser (`json.loads`) and the external model call
become function parameters, and each Python function that the claims touch
is translated into an executable Lean definition carrying the same branch
structure and the same message texts.
-/

namespace Keira

/-- Python/JSON-style dynamic values.  Dictionary keys are strings (all data
reaching the validator comes from JSON objects, whose keys are strings). -/
inductive PyVal where
  | none : PyVal
  | bool : Bool → PyVal
  | int : Int → PyVal
  | str : String → PyVal
  | list : List PyVal → PyVal
  | dict : List (String × PyVal) → PyVal

/-- A single-quote character, written via its code point. -/
def sq : String := "\x27"

/-- An opening-brace character as text. -/
def lbs : String := "\x7b"

/-- A closing-brace character as text. -/
def rbs : String := "\x7d"

mutual

/-- Python `repr` of a value, as used by f-string interpolation of containers
(string escaping inside reprs is not modelled; the values the claims touch
contain no quotes). -/
def pyRepr : PyVal → String
  | .none => "None"
  | .bool b => if b then "True" else "False"
  | .int i => toString i
  | .str s => sq ++ s ++ sq
  | .list xs => "[" ++ pyReprList xs ++ "]"
  | .dict kvs => lbs ++ pyReprDict kvs ++ rbs

/-- Comma-joined reprs of list elements. -/
def pyReprList : List PyVal → String
  | [] => ""
  | [x] => pyRepr x
  | x :: y :: rest => pyRepr x ++ ", " ++ pyReprList (y :: rest)

/-- Comma-joined reprs of dictionary items. -/
def pyReprDict : List (String × PyVal) → String
  | [] => ""
  | [(k, v)] => sq ++ k ++ sq ++ ": " ++ pyRepr v
  | (k, v) :: y :: rest => sq ++ k ++ sq ++ ": " ++ pyRepr v ++ ", " ++ pyReprDict (y :: rest)

end

/-- Python `str()` of a value. -/
def pyStr : PyVal → String
  | .none => "None"
  | .bool b => if b then "True" else "False"
  | .int i => toString i
  | .str s => s
  | .list xs => pyRepr (.list xs)
  | .dict kvs => pyRepr (.dict kvs)

/-- `sep.join(parts)`, implemented by plain string append (the core
`String.intercalate` does not reduce inside the kernel). -/
def joinSep (sep : String) : List String → String
  | [] => ""
  | [x] => x
  | x :: y :: rest => x ++ sep ++ joinSep sep (y :: rest)

/-- Python whitespace as stripped by `str.strip()`: space, tab, newline,
carriage return, vertical tab, form feed. -/
def isWsp (c : Char) : Bool :=
  c.toNat = 32 ∨ c.toNat = 9 ∨ c.toNat = 10 ∨ c.toNat = 13 ∨ c.toNat = 11 ∨ c.toNat = 12

/-- `s.strip()`: whitespace removed from both ends. -/
def pyTrim (s : String) : String :=
  String.mk ((s.data.dropWhile isWsp).reverse.dropWhile isWsp).reverse

/-- ASCII lowercasing of one character (all labels and candidate values in
this development are ASCII, where Python `str.lower` agrees). -/
def lowerCh (c : Char) : Char :=
  if 65 ≤ c.toNat ∧ c.toNat ≤ 90 then Char.ofNat (c.toNat + 32) else c

/-- `s.lower()`. -/
def pyLower (s : String) : String :=
  String.mk (s.data.map lowerCh)

/-- Split a character list at every occurrence of `c`. -/
def splitChar (c : Char) : List Char → List (List Char)
  | [] => [[]]
  | d :: ds =>
    if d = c then [] :: splitChar c ds
    else
      match splitChar c ds with
      | h :: t => (d :: h) :: t
      | [] => [[d]]

/-- `s.split(",")`. -/
def pySplitComma (s : String) : List String :=
  (splitChar (Char.ofNat 44) s.data).map String.mk

/-- Python truthiness. -/
def truthy : PyVal → Bool
  | .none => false
  | .bool b => b
  | .int i => i != 0
  | .str s => s != ""
  | .list xs => !xs.isEmpty
  | .dict kvs => !kvs.isEmpty

/-- `d.get(k)` for a dictionary value (default `None`); only applied to
values already checked to be dictionaries. -/
def pyGet (d : PyVal) (k : String) : PyVal :=
  match d with
  | .dict kvs => ((kvs.find? (fun p => p.1 == k)).map Prod.snd).getD .none
  | _ => .none

/-- `d.get(k, dflt)` for a dictionary value. -/
def pyGetD (d : PyVal) (k : String) (dflt : PyVal) : PyVal :=
  match d with
  | .dict kvs => ((kvs.find? (fun p => p.1 == k)).map Prod.snd).getD dflt
  | _ => dflt

/-- `k in d` for a dictionary value. -/
def hasKey (d : PyVal) (k : String) : Bool :=
  match d with
  | .dict kvs => kvs.any (fun p => p.1 == k)
  | _ => false

/-- Python `==` between a value and a string, as used by `x in options` when
`options` is a list of strings: only an equal string compares equal. -/
def pyEqStr (x : PyVal) (o : String) : Bool :=
  match x with
  | .str s => s == o
  | _ => false

/-- Characters kept by the slug regular expression `[^a-z0-9]+` after
lowercasing: lowercase ASCII letters and digits. -/
def isSlugKeep (c : Char) : Bool :=
  (97 ≤ c.toNat ∧ c.toNat ≤ 122) ∨ (48 ≤ c.toNat ∧ c.toNat ≤ 57)

/-- The underscore character. -/
def usc : Char := Char.ofNat 95

/-- `re.sub(r"[^a-z0-9]+", "_", s)` on a character list: every maximal run of
non-kept characters becomes a single underscore; the flag records whether the
previous character was part of such a run. -/
def collapseAux : Bool → List Char → List Char
  | _, [] => []
  | inRun, c :: cs =>
    if isSlugKeep c then c :: collapseAux false cs
    else if inRun then collapseAux true cs
    else usc :: collapseAux true cs

/-- The substitution applied to a whole list (no pending run). -/
def collapseRuns (l : List Char) : List Char :=
  collapseAux false l

/-- Python `strip` of underscores from both ends of a character list. -/
def stripUsc (l : List Char) : List Char :=
  ((l.dropWhile (fun c => c == usc)).reverse.dropWhile (fun c => c == usc)).reverse

/-- `re.sub(r"[^a-z0-9]+", "_", label.lower()).strip("_")` from
`_normalize_fields` (line 68 of `scripts/process_ai_issue.py`). -/
def slugify (s : String) : String :=
  String.mk (stripUsc (collapseRuns (pyLower s).data))

/-- The slug derivation exactly as the claim words it: label lowercased with
every run of non-alphanumeric characters collapsed to a single separator
(no stripping of leading or trailing separators, no positional fallback). -/
def slugClaim (s : String) : String :=
  String.mk (collapseRuns (pyLower s).data)

/-- An entry of the `body.N.attributes.options` list of a template.  A YAML
mapping becomes `obj` with its (string) label when present; any non-mapping
entry is carried by its `str()` rendering. -/
inductive RawOpt where
  | obj (labelO : Option String)
  | nonObj (s : String)
deriving DecidableEq, Repr

/-- One item of the `body` list of a template.  `rtype` models `item["type"]` (a
string in every GitHub issue form), `idO` the optional `id`, `labelO` the
optional `attributes.label`, `valueO` the optional `attributes.value` used by
markdown blocks, `options` the `attributes.options` list, and `requiredO` the
optional `validations.required` flag. -/
structure RawItem where
  rtype : String
  idO : Option String := Option.none
  labelO : Option String := Option.none
  valueO : Option String := Option.none
  options : List RawOpt := []
  requiredO : Option Bool := Option.none
deriving DecidableEq, Repr

/-- A raw issue-form template: display name and ordered body items. -/
structure Template where
  name : String := ""
  body : List RawItem := []
deriving DecidableEq, Repr

/-- A normalized field entry as built by `_normalize_fields` (a dictionary in
the Python code; markdown entries carry no `required`/`options` keys, which
behave exactly like `false`/`[]` under the truthiness guards of the code). -/
structure FieldEntry where
  ftype : String
  key : String
  label : String
  required : Bool := false
  options : List String := []
deriving DecidableEq, Repr

/-- Python `a or b` for an optional string against a fallback: the fallback is
used when the string is absent or empty. -/
def orS (a : Option String) (b : String) : String :=
  match a with
  | some s => if s = "" then b else s
  | Option.none => b

/-- `attrs.get("label") or t` (line 67): the label attribute when truthy,
else the type string of the item. -/
def labelOfItem (item : RawItem) : String :=
  orS item.labelO item.rtype

/-- The option-label comprehension of line 77:
`[o.get("label", "") for o in opts if isinstance(o, dict)]`. -/
def optionLabels (opts : List RawOpt) : List String :=
  opts.filterMap (fun o =>
    match o with
    | .obj l => some (l.getD "")
    | .nonObj _ => Option.none)

/-- The body of `_normalize_fields` (lines 55-79), with `n` the number of
entries appended so far (`len(fields)`, which equals the item index since
every iteration appends exactly one entry). -/
def normItems : List RawItem → Nat → List FieldEntry
  | [], _ => []
  | item :: rest, n =>
    if item.rtype = "markdown" then
      { ftype := "markdown",
        key := orS item.idO ("md_" ++ toString n),
        label := item.valueO.getD "" } :: normItems rest (n + 1)
    else
      let label := labelOfItem item
      let key := orS item.idO (orS (some (slugify label)) ("f_" ++ toString n))
      let base : FieldEntry :=
        { ftype := item.rtype, key := key, label := label,
          required := item.requiredO.getD false }
      (if item.rtype = "dropdown" ∨ item.rtype = "checkboxes" then
        { base with options := optionLabels item.options }
      else base) :: normItems rest (n + 1)

/-- `_normalize_fields` applied to a template (`template.get("body") or []`). -/
def normalizeFields (tpl : Template) : List FieldEntry :=
  normItems tpl.body 0

/-- An ordered template mapping (a Python dict: unique keys, insertion order). -/
def Templates := List (String × Template)

/-- `tkey in templates` / `templates[tkey]` lookup. -/
def lookupT (ts : Templates) (k : String) : Option Template :=
  (List.find? (fun p => p.1 == k) ts).map Prod.snd

/-- Template keys in mapping order (`templates.keys()`). -/
def keysOf (ts : Templates) : List String :=
  List.map Prod.fst ts

/-- Every distinct exception raised on the classification path of
`classify_issue_with_ai`, carrying the payload its message is built from. -/
inductive VErr where
  | noJson
  | jsonParse (msg : String)
  | notDict
  | invalidFields
  | missingTypeOrPriority
  | missingTemplateKey (tkeys : List String)
  | invalidTemplateKey (tkey : String) (tkeys : List String)
  | fieldViolations (missing : List String) (badOptions : List String)
  | emptyResponse
  | transport (msg : String)
  | invalidTypeFinal (t : String)
  | invalidTemplateKeyFinal (t : String)
  | exhausted (last : VErr)
deriving DecidableEq, Repr

/-- Python repr of a list of strings, as interpolated by the f-strings of
lines 275 and 280. -/
def reprStrList (l : List String) : String :=
  "[" ++ joinSep ", " (l.map (fun s => sq ++ s ++ sq)) ++ "]"

/-- The message text of each exception, exactly as the source constructs it. -/
def VErr.message : VErr → String
  | .noJson => "No JSON object found in AI response"
  | .jsonParse m => m
  | .notDict => "object has no attribute get"
  | .invalidFields => "Missing or invalid fields"
  | .missingTypeOrPriority => "Missing type or priority"
  | .missingTemplateKey ks => "Missing template_key. Choose one of: " ++ joinSep ", " ks
  | .invalidTemplateKey t ks =>
      "Invalid template_key " ++ sq ++ t ++ sq ++ ". Choose one of: " ++ joinSep ", " ks
  | .fieldViolations m b =>
      joinSep "; "
        ((if m.isEmpty then [] else ["missing required fields: " ++ joinSep ", " m])
          ++ (if b.isEmpty then [] else ["invalid option values: " ++ joinSep "; " b]))
  | .emptyResponse => "Empty model response"
  | .transport m => m
  | .invalidTypeFinal t => "Invalid type: " ++ t
  | .invalidTemplateKeyFinal t => "Invalid template_key: " ++ sq ++ t ++ sq ++ "."
  | .exhausted e => "Failed to obtain structured response after retries: " ++ e.message

/-- The required-field keys of the selected template (line 264):
`[f.key for f in fields if f.get("required") and f.get("type") != "markdown"]`. -/
def requiredKeys (fs : List FieldEntry) : List String :=
  (fs.filter (fun f => f.required && f.ftype != "markdown")).map FieldEntry.key

/-- The missing-required comprehension of line 265:
`[k for k in required if not str(data["fields"].get(k, "")).strip()]`. -/
def missingOf (fs : List FieldEntry) (fieldsV : PyVal) : List String :=
  (requiredKeys fs).filter (fun k => pyTrim (pyStr (pyGetD fieldsV k (.str ""))) = "")

/-- The by-key dictionary comprehension of line 268; a Python dict
comprehension keeps the LAST entry for a duplicated key. -/
def byKey (fs : List FieldEntry) (k : String) : Option FieldEntry :=
  fs.reverse.find? (fun f => f.key == k)

/-- The checkbox token normalization shared by lines 277 and 437: a list
value is used as is, anything else is `str()`-ed, comma-split, stripped, and
empty tokens dropped. -/
def tokensOf (v : PyVal) : List PyVal :=
  match v with
  | .list xs => xs
  | _ => (((pySplitComma (pyStr v)).map pyTrim).filter (fun s => s != "")).map PyVal.str

/-- The bad-option messages one `fields` item contributes (lines 269-280). -/
def badFor (fs : List FieldEntry) (k : String) (v : PyVal) : List String :=
  match byKey fs k with
  | Option.none => []
  | some meta =>
    (if meta.ftype = "dropdown" ∧ ¬meta.options.isEmpty
        ∧ ¬meta.options.contains (pyTrim (pyStr v)) then
      [k ++ " -> " ++ sq ++ pyStr v ++ sq ++ " (choose one of " ++ reprStrList meta.options ++ ")"]
    else [])
    ++
    (if meta.ftype = "checkboxes" then
      let invalid := (tokensOf v).filter
        (fun x => ¬meta.options.isEmpty ∧ ¬meta.options.any (fun o => pyEqStr x o))
      if ¬invalid.isEmpty then
        [k ++ " -> " ++ pyStr (.list invalid) ++ " (choose from " ++ reprStrList meta.options ++ ")"]
      else []
    else [])

/-- All bad-option messages over `data["fields"].items()` in order. -/
def badOptionsOf (fs : List FieldEntry) (fieldsV : PyVal) : List String :=
  match fieldsV with
  | .dict items => items.flatMap (fun p => badFor fs p.1 p.2)
  | _ => []

/-- The per-attempt validation block of `classify_issue_with_ai`
(lines 253-292): structural checks raise in sequence, then the
required-field and option checks are collected jointly. -/
def validateData (ts : Templates) (data : PyVal) : Except VErr PyVal :=
  match data with
  | .dict _ =>
    let fieldsV := pyGet data "fields"
    match fieldsV with
    | .dict _ =>
      if ¬(hasKey data "type" ∧ hasKey data "priority") then
        .error .missingTypeOrPriority
      else if ¬(hasKey data "template_key" ∧ truthy (pyGet data "template_key")) then
        .error (.missingTemplateKey (keysOf ts))
      else
        let tkey := pyStr (pyGet data "template_key")
        match lookupT ts tkey with
        | Option.none => .error (.invalidTemplateKey tkey (keysOf ts))
        | some tpl =>
          let fs := normalizeFields tpl
          let missing := missingOf fs fieldsV
          let bad := badOptionsOf fs fieldsV
          if ¬missing.isEmpty ∨ ¬bad.isEmpty then
            .error (.fieldViolations missing bad)
          else .ok data
    | _ => .error .invalidFields
  | _ => .error .notDict

/-- The opening-brace character. -/
def lb : Char := Char.ofNat 123

/-- The closing-brace character. -/
def rb : Char := Char.ofNat 125

/-- `re.search(r"\x7b[\s\S]*\x7d", result)` (line 249): the greedy match runs
from the first opening brace to the last closing brace after it; `none` when
no such span exists. -/
def extractBrace (s : String) : Option String :=
  let tail := s.data.dropWhile (fun c => c ≠ lb)
  let kept := (tail.reverse.dropWhile (fun c => c ≠ rb)).reverse
  if kept = [] then Option.none else some (String.mk kept)

/-- The parse-and-validate step of one reply (lines 248-292).  `parse` stands for
the external `json.loads`: it returns the parsed value or an error
message. -/
def processReply (parse : String → Except String PyVal) (ts : Templates)
    (reply : String) : Except VErr PyVal :=
  match extractBrace reply with
  | Option.none => .error .noJson
  | some g =>
    match parse g with
    | .error m => .error (.jsonParse m)
    | .ok d => validateData ts d

/-- One iteration of the retry loop (lines 238-294): a transport failure from
`call_model`, an empty reply, or a parse/validation failure each yield the
error of the attempt.  `oracle k` stands for the model call at attempt `k`. -/
def runAttemptOutcome (oracle : Nat → Except String String)
    (parse : String → Except String PyVal) (ts : Templates) (k : Nat) :
    Except VErr PyVal :=
  match oracle k with
  | .error e => .error (.transport e)
  | .ok reply => if reply = "" then .error .emptyResponse else processReply parse ts reply

/-- The third and last iteration of `for attempt in range(1, 4)`: a failure
here leaves the loop with `last_error` set, so line 309 raises the terminal
`RuntimeError` wrapping that last failure. -/
def loopTail3 (oracle : Nat → Except String String)
    (parse : String → Except String PyVal) (ts : Templates) : Except VErr PyVal :=
  match runAttemptOutcome oracle parse ts 3 with
  | .ok d => .ok d
  | .error e3 => .error (.exhausted e3)

/-- The loop from its second iteration on: a failure overwrites `last_error`
and one more iteration remains. -/
def loopTail2 (oracle : Nat → Except String String)
    (parse : String → Except String PyVal) (ts : Templates) : Except VErr PyVal :=
  match runAttemptOutcome oracle parse ts 2 with
  | .ok d => .ok d
  | .error _ => loopTail3 oracle parse ts

/-- The whole `for attempt in range(1, 4)` loop plus the final
`if last_error: raise` (lines 236-309), unrolled over its fixed
three-iteration budget: each failed attempt hands the loop to the next
iteration, overwriting `last_error`; success breaks out with the parsed
data. -/
def classifyLoop (oracle : Nat → Except String String)
    (parse : String → Except String PyVal) (ts : Templates) : Except VErr PyVal :=
  match runAttemptOutcome oracle parse ts 1 with
  | .ok d => .ok d
  | .error _ => loopTail2 oracle parse ts

/-- The synthetic violation a reply receives before the schema validator can
run: `noJson` when no brace-delimited span exists, otherwise the parse error
of the greedy brace span (the `.ok` arm is never reached when no
brace-delimited substring parses as an object). -/
def syntheticErrOf (parse : String → Except String PyVal) (reply : String) : VErr :=
  match extractBrace reply with
  | Option.none => .noJson
  | some g =>
    match parse g with
    | .error m => .jsonParse m
    | .ok _ => .noJson

/-- The failure of the third loop attempt (meaningful when that attempt
fails). -/
def lastErrOf (oracle : Nat → Except String String)
    (parse : String → Except String PyVal) (ts : Templates) : VErr :=
  match runAttemptOutcome oracle parse ts 3 with
  | .error e => e
  | .ok _ => .emptyResponse

/-- The closed type set of line 386. -/
def allowedTypes : List String := ["bug", "enhancement", "feature", "question"]

/-- The closed priority set of line 388. -/
def allowedPriorities : List String := ["p0", "p1", "p2", "p3", "p4"]

/-- The final structured classification returned by `classify_issue_with_ai`
(the tuple of line 411 plus the `structured` dictionary). -/
structure Structured where
  itype : String
  prio : String
  labelsCsv : String
  title : String
  templateKey : String
  fields : PyVal

/-- The label map of lines 398-403, with the `.get(itype, "needs-triage")`
default of line 411. -/
def labelMap (itype : String) : String :=
  if itype = "bug" then "bug,needs-triage"
  else if itype = "enhancement" then "enhancement,needs-triage"
  else if itype = "feature" then "feature-request,needs-triage"
  else if itype = "question" then "question,needs-triage"
  else "needs-triage"

/-- `prio = str(data.get("priority", "p2")).lower()` then the coercion of
lines 388-389: an out-of-set priority becomes `"p2"`. -/
def coercePriority (data : PyVal) : String :=
  let prio := pyLower (pyStr (pyGetD data "priority" (.str "p2")))
  if allowedPriorities.contains prio then prio else "p2"

/-- The result construction of lines 378-411 over the validated data.  The
`confidence` float of line 381 is used only for logging and is not modelled. -/
def buildStructured (data : PyVal) (originalTitle : String) (ts : Templates) :
    Except VErr Structured :=
  let itype := pyLower (pyStr (pyGetD data "type" (.str "feature")))
  let prio := coercePriority data
  let titleRaw := if truthy (pyGet data "title") then pyGet data "title"
    else if originalTitle ≠ "" then .str originalTitle else .str ""
  let title := pyTrim (pyStr titleRaw)
  let templateKey := pyTrim (pyStr (if truthy (pyGet data "template_key") then
    pyGet data "template_key" else .str ""))
  let fields := if truthy (pyGet data "fields") then pyGet data "fields" else .dict []
  if ¬allowedTypes.contains itype then .error (.invalidTypeFinal itype)
  else
    let title := if title = "" then (if originalTitle ≠ "" then originalTitle else "Issue") else title
    if templateKey = "" ∨ (lookupT ts templateKey).isNone then
      .error (.invalidTemplateKeyFinal templateKey)
    else
      .ok { itype := itype, prio := prio, labelsCsv := labelMap itype,
            title := title, templateKey := templateKey, fields := fields }

/-- The top-level names defined or imported by `scripts/process_ai_issue.py`
(its own definitions plus its imports); Python resolves a bare name against
these globals and the builtins. -/
def moduleGlobals : List String :=
  ["os", "sys", "json", "re", "logging", "Dict", "Tuple", "Any", "List",
   "Path", "yaml", "logger", "load_issue_templates", "_normalize_fields",
   "_select_template", "extract_issue_content", "_select_single_provider",
   "classify_issue_with_ai", "generate_formatted_content", "main", "__name__"]

/-- A (superset-representative) list of Python builtin names; no builtin is
named `_require_providers`. -/
def pythonBuiltins : List String :=
  ["str", "int", "float", "bool", "list", "dict", "set", "tuple", "len",
   "range", "isinstance", "issubclass", "print", "open", "sorted", "reversed",
   "enumerate", "zip", "map", "filter", "any", "all", "min", "max", "sum",
   "abs", "repr", "format", "getattr", "setattr", "hasattr", "type", "object",
   "super", "bytes", "bytearray", "frozenset", "id", "hash", "iter", "next",
   "vars", "dir", "globals", "locals", "callable", "divmod", "pow", "round",
   "hex", "oct", "bin", "ord", "chr", "slice", "memoryview", "complex",
   "input", "compile", "Exception", "BaseException", "ValueError",
   "RuntimeError", "TypeError", "KeyError", "IndexError", "AttributeError",
   "NameError", "ImportError", "StopIteration", "OSError", "True", "False",
   "None", "NotImplemented", "Ellipsis", "__import__", "__name__", "__doc__"]

/-- Whether a bare name resolves in the module (globals or builtins). -/
def resolvable (n : String) : Bool :=
  moduleGlobals.contains n || pythonBuiltins.contains n

/-- Outcome of running a Python function: a return value, or an uncaught
exception with its kind and message. -/
inductive PyResult (α : Type) where
  | ok (a : α)
  | exc (kind : String) (msg : String)
deriving Repr

/-- The exception class each `VErr` is raised as. -/
def VErr.kind : VErr → String
  | .exhausted _ => "RuntimeError"
  | .transport _ => "Exception"
  | .jsonParse _ => "Exception"
  | .emptyResponse => "RuntimeError"
  | .notDict => "AttributeError"
  | _ => "ValueError"

/-- `classify_issue_with_ai` (lines 150-416): line 207 evaluates the bare
name `_require_providers` before the `try` block and before any provider
selection or model call; an unresolvable name raises `NameError` there.  The
remaining body (provider selection, the retry loop, validation, and result
construction) is modelled on the resolvable branch. -/
def classify_issue_with_ai (oracle : Nat → Except String String)
    (parse : String → Except String PyVal) (_description originalTitle : String)
    (_labels : List String) (ts : Templates) : PyResult Structured :=
  if resolvable "_require_providers" then
    match classifyLoop oracle parse ts with
    | .error e => .exc e.kind e.message
    | .ok d =>
      match buildStructured d originalTitle ts with
      | .error e => .exc e.kind e.message
      | .ok s => .ok s
  else
    .exc "NameError" ("name " ++ sq ++ "_require_providers" ++ sq ++ " is not defined")

/-- Truthiness of `os.environ.get(k)`: the variable must be present and
non-empty. -/
def envTruthy (env : String → Option String) (k : String) : Bool :=
  match env k with
  | some s => s != ""
  | Option.none => false

/-- The configured-provider list of `_select_single_provider`
(lines 123-129), built in the fixed order of the source. -/
def configuredProviders (env : String → Option String) : List String :=
  (if envTruthy env "OPENAI_API_KEY" then ["openai"] else [])
    ++ (if envTruthy env "DEEPSEEK_API_KEY" then ["deepseek"] else [])
    ++ (if envTruthy env "ANTHROPIC_API_KEY" then ["anthropic"] else [])

/-- The import probe of lines 139-146: `openai`/`deepseek` require the
`openai` package, `anthropic` requires `anthropic`, any other provider value
imports nothing. -/
def importOk (importable : List String) (provider : String) : Bool :=
  if provider = "openai" ∨ provider = "deepseek" then importable.contains "openai"
  else if provider = "anthropic" then importable.contains "anthropic"
  else true

/-- `_select_single_provider` (lines 117-147): `sys.exit(2)` is modelled as
`.error 2`; `importable` is the set of importable package names. -/
def select_single_provider (env : String → Option String)
    (importable : List String) : Except Nat String :=
  let configured := configuredProviders env
  if configured.length = 0 then .error 2
  else if configured.length > 1 then .error 2
  else
    match configured.head? with
    | Option.none => .error 2
    | some provider =>
      if importOk importable provider then .ok provider else .error 2

/-- The label the renderer derives for one raw option entry (lines 440-442):
`opt.get("label")` for a mapping (absent meaning `None`), `str(opt)`
otherwise; a falsy label (absent or empty) makes the renderer skip the
option, which the empty string captures for both cases. -/
def optionRenderLabel : RawOpt → String
  | .obj l => l.getD ""
  | .nonObj s => s

/-- The rendered checkbox lines of lines 438-444: one `- [x] `/`- [ ] ` line
per option whose derived label is truthy, marked checked exactly when the
label is `in` the selected list. -/
def checkboxLines (opts : List RawOpt) (selected : List PyVal) : List String :=
  opts.filterMap (fun o =>
    let lbl := optionRenderLabel o
    if lbl = "" then Option.none
    else some ((if selected.any (fun x => pyEqStr x lbl) then "- [x] " else "- [ ] ") ++ lbl))

/-- The checkbox section of lines 436-446. -/
def renderCheckboxSection (label : String) (opts : List RawOpt) (valueRaw : PyVal) : String :=
  let selected := tokensOf valueRaw
  let lines := checkboxLines opts selected
  "## " ++ label ++ "\n" ++ (if lines.isEmpty then "" else joinSep "\n" lines)

mutual

/-- `json.dumps(v, ensure_ascii=False)` with default separators (string
escaping is not modelled; rendered values in the claims contain no quotes). -/
def pyJsonDumps : PyVal → String
  | .none => "null"
  | .bool b => if b then "true" else "false"
  | .int i => toString i
  | .str s => "\"" ++ s ++ "\""
  | .list xs => "[" ++ pyJsonDumpsList xs ++ "]"
  | .dict kvs => lbs ++ pyJsonDumpsDict kvs ++ rbs

/-- Comma-joined JSON dumps of list elements. -/
def pyJsonDumpsList : List PyVal → String
  | [] => ""
  | [x] => pyJsonDumps x
  | x :: y :: rest => pyJsonDumps x ++ ", " ++ pyJsonDumpsList (y :: rest)

/-- Comma-joined JSON dumps of dictionary items. -/
def pyJsonDumpsDict : List (String × PyVal) → String
  | [] => ""
  | [(k, v)] => "\"" ++ k ++ "\": " ++ pyJsonDumps v
  | (k, v) :: y :: rest => "\"" ++ k ++ "\": " ++ pyJsonDumps v ++ ", " ++ pyJsonDumpsDict (y :: rest)

end

/-- The label derivation of the renderer (line 432): `attrs.get("label") or t or ""`. -/
def renderLabel (item : RawItem) : String :=
  orS item.labelO item.rtype

/-- The key derivation of the renderer (line 433):
`item.get("id") or re.sub(...).strip("_")` — unlike the normalizer, there is
no positional fallback for an empty slug. -/
def renderKey (item : RawItem) : String :=
  orS item.idO (slugify (renderLabel item))

/-- The rendered block of one body item (lines 424-450): `none` when a markdown
block with a falsy value is skipped. -/
def renderItem (fieldsV : PyVal) (item : RawItem) : Option String :=
  if item.rtype = "markdown" then
    match item.valueO.getD "" with
    | "" => Option.none
    | v => some v
  else
    let label := renderLabel item
    let valueRaw := pyGetD fieldsV (renderKey item) (.str "")
    if item.rtype = "checkboxes" then
      some (renderCheckboxSection label item.options valueRaw)
    else
      let value := match valueRaw with
        | .str s => s
        | v => pyJsonDumps v
      some ("## " ++ label ++ "\n" ++ pyTrim value)

/-- `generate_formatted_content` (lines 421-453). -/
def generate_formatted_content (tpl : Template) (fieldsV : PyVal)
    (images : List String) : String :=
  let out := tpl.body.filterMap (renderItem fieldsV)
    ++ (if images.isEmpty then []
        else ["## Screenshots\n"
          ++ joinSep "\n" (images.map (fun u => "![image](" ++ u ++ ")"))])
  joinSep "\n\n" (out.filter (fun s => s != ""))

/-- String sorting as Python `sorted` over strings. -/
def sortedStrings (l : List String) : List String :=
  l.mergeSort (fun a b => a ≤ b)

/-- `validate_result` from `.github/scripts/ai_issue_analyze.py`
(lines 109-142): every check raises on its own, in sequence — the first
message of the first failing check is the only one reported. -/
def validate_result (obj : PyVal) (allowedTemplates : List String)
    (repoLabels : List String) : Except String Unit :=
  match ["template_file", "title", "labels", "markdown_body"].find?
      (fun k => ¬hasKey obj k) with
  | some k => .error ("Missing key: " ++ k)
  | Option.none =>
    let templateFile := pyGet obj "template_file"
    let title := pyGet obj "title"
    let labels := pyGet obj "labels"
    let body := pyGet obj "markdown_body"
    let isStr : PyVal → Bool := fun v => match v with | .str _ => true | _ => false
    if ¬(isStr templateFile ∧ allowedTemplates.contains (pyStr templateFile)) then
      .error ("template_file must be one of: "
        ++ joinSep ", " (sortedStrings allowedTemplates))
    else if ¬(isStr title ∧ pyTrim (pyStr title) ≠ "") then
      .error "title must be a non-empty string"
    else if ¬(isStr body ∧ pyTrim (pyStr body) ≠ "") then
      .error "markdown_body must be a non-empty string"
    else
      match labels with
      | .list xs =>
        if ¬xs.all isStr then .error "labels must be an array of strings"
        else
          let names := xs.map pyStr
          let unknown := (names.filter (fun n => ¬repoLabels.contains n)).eraseDups
          if ¬unknown.isEmpty then
            .error ("labels contain unknown values: "
              ++ joinSep ", " (sortedStrings unknown))
          else
            let typeCandidates := ["type:bug", "type:feature", "type:enhancement", "type:question"]
            let existsType := (names.eraseDups).filter (fun n => typeCandidates.contains n)
            if existsType.length ≠ 1 then
              .error ("labels must include exactly ONE of "
                ++ lbs ++ "type:bug|type:feature|type:enhancement|type:question" ++ rbs)
            else if names.contains "ai:triage" then
              .error ("labels must NOT include " ++ sq ++ "ai:triage" ++ sq)
            else .ok ()
      | _ => .error "labels must be an array of strings"

/-- Declarative per-field option condition, phrased as the (amended) claim
words it: a dropdown field passes exactly when its option list is empty or
the stripped string form of the supplied value is one of the options
(case-sensitive); a checkboxes field passes exactly when every normalized
token is one of the options (or the option list is empty); a field without a
descriptor is never checked. -/
def fieldValueOk (fs : List FieldEntry) (k : String) (v : PyVal) : Prop :=
  match byKey fs k with
  | Option.none => True
  | some meta =>
    (meta.ftype = "dropdown" → meta.options = [] ∨ pyTrim (pyStr v) ∈ meta.options) ∧
    (meta.ftype = "checkboxes" →
      ∀ x ∈ tokensOf v, meta.options = [] ∨ ∃ o ∈ meta.options, x = PyVal.str o)

/-- The slug-or-positional-fallback key derivation, as the amended claim
words it: the label slug (lowercased, non-alphanumeric runs collapsed to a
single separator, leading/trailing separators stripped), or `f_<index>` when
that slug is empty. -/
def slugOrFallback (label : String) (n : Nat) : String :=
  if slugify label = "" then "f_" ++ toString n else slugify label

/-- Key derivation as the amended claim words it: the explicit identifier
when present and non-empty, else the slug-or-fallback of the label. -/
def keySpecAmended (idO : Option String) (label : String) (n : Nat) : String :=
  match idO with
  | some i => if i = "" then slugOrFallback label n else i
  | Option.none => slugOrFallback label n

/-- The normalizer as the amended claim describes it, written independently
of `normItems`: for field items the key comes from `keySpecAmended`, the
required flag from the nested validation flag with absent meaning false, and
for dropdown/checkboxes items the ordered option labels with non-mapping
entries skipped and mapping entries contributing their label or the empty
string; markdown items as in the source. -/
def normItemsSpec : List RawItem → Nat → List FieldEntry
  | [], _ => []
  | item :: rest, n =>
    (if item.rtype = "markdown" then
      { ftype := "markdown",
        key := match item.idO with
          | some i => if i = "" then "md_" ++ toString n else i
          | Option.none => "md_" ++ toString n,
        label := item.valueO.getD "" }
    else
      { ftype := item.rtype,
        key := keySpecAmended item.idO (labelOfItem item) n,
        label := labelOfItem item,
        required := item.requiredO.getD false,
        options :=
          if item.rtype = "dropdown" ∨ item.rtype = "checkboxes" then
            item.options.filterMap (fun o =>
              match o with
              | .obj l => some (l.getD "")
              | .nonObj _ => Option.none)
          else [] }) :: normItemsSpec rest (n + 1)

/-- A bug-report template whose only field is a required textarea with
explicit id `steps`, as in the claim scenario. -/
def stepsTpl : Template :=
  { name := "Bug Report",
    body := [{ rtype := "textarea", idO := some "steps",
               labelO := some "Steps to Reproduce", requiredO := some true }] }

/-- A one-template mapping holding `stepsTpl` under key `bug_report`. -/
def stepsTpls : Templates := [("bug_report", stepsTpl)]

/-- The claim scenario candidate: type `bug`, priority `p9`, valid template
key, empty fields. -/
def candScenario : PyVal := .dict
  [("type", .str "bug"), ("priority", .str "p9"),
   ("template_key", .str "bug_report"), ("fields", .dict [])]

/-- A candidate whose type and priority are outside the closed sets only by
letter case, with the required field supplied. -/
def candCase : PyVal := .dict
  [("type", .str "Bug"), ("priority", .str "P0"),
   ("template_key", .str "bug_report"), ("fields", .dict [("steps", .str "do")])]

/-- A candidate whose required `steps` field is present but set to JSON
`null` — not a string value at all. -/
def candNull : PyVal := .dict
  [("type", .str "bug"), ("priority", .str "p2"),
   ("template_key", .str "bug_report"), ("fields", .dict [("steps", PyVal.none)])]

/-- A candidate that omits the required `steps` field entirely. -/
def candMissingSteps : PyVal := .dict
  [("type", .str "bug"), ("priority", .str "p1"),
   ("template_key", .str "bug_report"), ("fields", .dict [("other", .str "x")])]

/-- A template with a single dropdown field `choice` whose only option is
`A`. -/
def dropTpl : Template :=
  { body := [{ rtype := "dropdown", idO := some "choice", labelO := some "Choice",
               options := [.obj (some "A")] }] }

/-- A one-template mapping for `dropTpl`. -/
def dropTpls : Templates := [("t", dropTpl)]

/-- A candidate supplying the dropdown value `"A "` — equal to the declared
option only after stripping. -/
def candPadded : PyVal := .dict
  [("type", .str "bug"), ("priority", .str "p1"),
   ("template_key", .str "t"), ("fields", .dict [("choice", .str "A ")])]

/-- A template with both a required textarea and a dropdown, used to exhibit
a joint missing-field plus bad-option report. -/
def comboTpl : Template :=
  { body := [{ rtype := "textarea", idO := some "steps",
               labelO := some "Steps", requiredO := some true },
             { rtype := "dropdown", idO := some "severity", labelO := some "Severity",
               options := [.obj (some "High"), .obj (some "Low")] }] }

/-- A one-template mapping for `comboTpl`. -/
def comboTpls : Templates := [("combo", comboTpl)]

/-- A candidate that both omits `steps` and supplies an undeclared dropdown
value. -/
def candCombo : PyVal := .dict
  [("type", .str "bug"), ("priority", .str "p1"),
   ("template_key", .str "combo"), ("fields", .dict [("severity", .str "Mid")])]

/-- The claim scenario option list A, B, C. -/
def optsABC : List RawOpt := [.obj (some "A"), .obj (some "B"), .obj (some "C")]

/-- An option list whose middle entry is a mapping without a label. -/
def optsGap : List RawOpt := [.obj (some "A"), .obj Option.none, .obj (some "C")]

/-- A field item with no explicit id whose label slugs to a key with a
stripped trailing separator, and whose option list holds an empty mapping
and a non-mapping entry. -/
def itemBang : RawItem :=
  { rtype := "dropdown", labelO := some "A!",
    options := [.obj Option.none, .nonObj "x"] }

/-- A field item with no explicit id, used twice to exhibit key collision. -/
def itemDup : RawItem :=
  { rtype := "textarea", labelO := some "Same Label" }

/-- An environment configuring exactly one provider (OpenAI). -/
def envOnlyOpenAI : String → Option String :=
  fun k => if k = "OPENAI_API_KEY" then some "sk-test" else Option.none

/-- An environment configuring two providers. -/
def envTwo : String → Option String :=
  fun k => if k = "OPENAI_API_KEY" ∨ k = "ANTHROPIC_API_KEY" then some "k" else Option.none

/-- A parser that always fails, standing for `json.loads` on inputs it
rejects. -/
def failParse : String → Except String PyVal :=
  fun _ => .error "Expecting value: line 1 column 1 (char 0)"

/-- An oracle whose replies never contain a parseable object. -/
def proseOracle : Nat → Except String String :=
  fun _ => .ok "The model reply contains prose only."

/-- An oracle equal to `proseOracle` on the three budgeted attempts but
different afterwards. -/
def proseOracle4 : Nat → Except String String :=
  fun k => if k ≤ 3 then proseOracle k else .error "later"

/-- `pyEqStr` holds exactly on the equal string value. -/
lemma pyEqStr_iff (x : PyVal) (o : String) : pyEqStr x o = true ↔ x = PyVal.str o := by
  cases x <;> simp [pyEqStr]

/-- The head of a `dropWhile` result fails the predicate. -/
lemma dropWhile_head_false {α : Type} (p : α → Bool) :
    ∀ (l : List α) (c : α) (cs : List α), l.dropWhile p = c :: cs → p c = false := by
  intro l
  induction l with
  | nil => intro c cs h; cases h
  | cons a as ih =>
    intro c cs h
    by_cases hp : p a
    · rw [List.dropWhile_cons_of_pos hp] at h
      exact ih c cs h
    · rw [List.dropWhile_cons_of_neg hp] at h
      cases h
      simpa using hp

/-- The greedy brace span, as a list decomposition: when the kept part is
non-empty it is a contiguous piece of the input beginning with `lb` and
ending with `rb`. -/
lemma greedy_parts (l kept : List Char)
    (hkept : kept = ((l.dropWhile (fun c => c ≠ lb)).reverse.dropWhile
      (fun c => c ≠ rb)).reverse)
    (hk : kept ≠ []) :
    (∃ pre post : List Char, l = pre ++ kept ++ post) ∧
      kept.head? = some lb ∧ kept.getLast? = some rb := by
  obtain ⟨pre, hpre⟩ := List.dropWhile_suffix (l := l) (fun c => c ≠ lb)
  obtain ⟨u, hu⟩ :=
    List.dropWhile_suffix (l := (l.dropWhile (fun c => c ≠ lb)).reverse) (fun c => c ≠ rb)
  have hkr : kept.reverse
      = (l.dropWhile (fun c => c ≠ lb)).reverse.dropWhile (fun c => c ≠ rb) := by
    rw [hkept, List.reverse_reverse]
  have hA : l.dropWhile (fun c => c ≠ lb) = kept ++ u.reverse := by
    have h2 : u ++ kept.reverse = (l.dropWhile (fun c => c ≠ lb)).reverse := by
      rw [hkr]; exact hu
    have h3 := congrArg List.reverse h2
    simpa [List.reverse_append] using h3.symm
  obtain ⟨c, cs, hc⟩ := List.exists_cons_of_ne_nil hk
  have hshape : l.dropWhile (fun c => c ≠ lb) = c :: (cs ++ u.reverse) := by
    rw [hA, hc]; rfl
  have hc_lb : c = lb := by
    simpa using dropWhile_head_false (fun c => c ≠ lb) l c _ hshape
  have hrevne : kept.reverse ≠ [] := by simp [hc]
  obtain ⟨d, ds, hd⟩ := List.exists_cons_of_ne_nil hrevne
  have hshape2 : (l.dropWhile (fun c => c ≠ lb)).reverse.dropWhile (fun c => c ≠ rb)
      = d :: ds := by rw [← hkr, hd]
  have hd_rb : d = rb := by
    simpa using dropWhile_head_false (fun c => c ≠ rb)
      (l.dropWhile (fun c => c ≠ lb)).reverse d _ hshape2
  refine ⟨⟨pre, u.reverse, ?_⟩, ?_, ?_⟩
  · rw [List.append_assoc, ← hA, hpre]
  · rw [hc, hc_lb]; rfl
  · rw [← List.head?_reverse, hd, hd_rb]; rfl

/-- A successful greedy brace extraction yields a contiguous substring of the
input that starts with an opening brace and ends with a closing brace. -/
lemma extractBrace_parts (s g : String) (h : extractBrace s = some g) :
    (∃ pre post : List Char, s.data = pre ++ g.data ++ post) ∧
      g.data.head? = some lb ∧ g.data.getLast? = some rb := by
  unfold extractBrace at h
  by_cases hk : ((s.data.dropWhile (fun c => c ≠ lb)).reverse.dropWhile
      (fun c => c ≠ rb)).reverse = []
  · rw [if_pos hk] at h
    cases h
  · rw [if_neg hk] at h
    cases h
    exact greedy_parts s.data _ rfl hk

/-- Once a candidate passes the sequential structural checks, validation
reduces to the joint required-field and option check. -/
lemma validateData_structural (ts : Templates) (kvs fkvs : List (String × PyVal))
    (tpl : Template)
    (hf : pyGet (.dict kvs) "fields" = .dict fkvs)
    (ht : hasKey (.dict kvs) "type" = true)
    (hp : hasKey (.dict kvs) "priority" = true)
    (hk : hasKey (.dict kvs) "template_key" = true)
    (htr : truthy (pyGet (.dict kvs) "template_key") = true)
    (hlook : lookupT ts (pyStr (pyGet (.dict kvs) "template_key")) = some tpl) :
    validateData ts (.dict kvs) =
      if ¬(missingOf (normalizeFields tpl) (.dict fkvs)).isEmpty
          ∨ ¬(badOptionsOf (normalizeFields tpl) (.dict fkvs)).isEmpty then
        .error (.fieldViolations (missingOf (normalizeFields tpl) (.dict fkvs))
          (badOptionsOf (normalizeFields tpl) (.dict fkvs)))
      else .ok (.dict kvs) := by
  unfold validateData
  rw [hf]
  simp only [ht, hp, hk, htr, hlook]
  simp

/-- The outcome of one attempt depends on the oracle only through that
reply of that attempt. -/
lemma runAttemptOutcome_congr (o o2 : Nat → Except String String)
    (parse : String → Except String PyVal) (ts : Templates) (k : Nat)
    (h : o k = o2 k) :
    runAttemptOutcome o parse ts k = runAttemptOutcome o2 parse ts k := by
  unfold runAttemptOutcome
  rw [h]

/-- A one-message conditional list is empty exactly when its condition
fails. -/
lemma ite_singleton_eq_nil (c : Prop) [Decidable c] (x : String) :
    ((if c then [x] else ([] : List String)) = []) ↔ ¬c := by
  by_cases hc : c <;> simp [hc]

/-- C1: for every input — any description, title, label list, template set,
and any behaviour of the external model and JSON parser —
`classify_issue_with_ai` raises an uncaught `NameError` at line 207 because
`_require_providers` resolves against neither the module globals nor the
builtins; no model invocation, retry, validation, or result construction is
reached (the result does not depend on the oracle or parser at all). -/
theorem classify_raises_nameError (oracle : Nat → Except String String)
    (parse : String → Except String PyVal) (desc title : String)
    (labels : List String) (ts : Templates) :
    classify_issue_with_ai oracle parse desc title labels ts =
      .exc "NameError" ("name " ++ sq ++ "_require_providers" ++ sq ++ " is not defined") :=
  rfl

/-- C2 counterexample: the empty candidate object violates the
fields-mapping check, the type check, the priority check, and the
template-key check at once, yet validation stops at the first structural
check and reports only the single message `Missing or invalid fields` —
not a joint set of all violations; `validate_result` from
`ai_issue_analyze.py` likewise reports only its first missing key. -/
theorem validator_fail_fast_counterexample :
    validateData stepsTpls (.dict []) = .error .invalidFields ∧
    hasKey (.dict ([] : List (String × PyVal))) "type" = false ∧
    hasKey (.dict ([] : List (String × PyVal))) "template_key" = false ∧
    VErr.message .invalidFields = "Missing or invalid fields" ∧
    validate_result (.dict []) ["bug.yml"] [] = .error "Missing key: template_file" :=
  ⟨rfl, rfl, rfl, rfl, rfl⟩

/-- C2 (amended): the structural checks (fields mapping, type/priority
presence, template-key presence and validity) are sequential and fail-fast;
only the required-field check and the option check are evaluated together in
one pass, and when both find violations the two full lists are reported
jointly inside one message. -/
theorem validator_joint_field_violations (ts : Templates)
    (kvs fkvs : List (String × PyVal)) (tpl : Template)
    (hf : pyGet (.dict kvs) "fields" = .dict fkvs)
    (ht : hasKey (.dict kvs) "type" = true)
    (hp : hasKey (.dict kvs) "priority" = true)
    (hk : hasKey (.dict kvs) "template_key" = true)
    (htr : truthy (pyGet (.dict kvs) "template_key") = true)
    (hlook : lookupT ts (pyStr (pyGet (.dict kvs) "template_key")) = some tpl)
    (hm : missingOf (normalizeFields tpl) (.dict fkvs) ≠ [])
    (hb : badOptionsOf (normalizeFields tpl) (.dict fkvs) ≠ []) :
    validateData ts (.dict kvs) =
      .error (.fieldViolations (missingOf (normalizeFields tpl) (.dict fkvs))
        (badOptionsOf (normalizeFields tpl) (.dict fkvs))) ∧
    (VErr.fieldViolations (missingOf (normalizeFields tpl) (.dict fkvs))
        (badOptionsOf (normalizeFields tpl) (.dict fkvs))).message =
      "missing required fields: "
        ++ joinSep ", " (missingOf (normalizeFields tpl) (.dict fkvs))
        ++ "; " ++ "invalid option values: "
        ++ joinSep "; " (badOptionsOf (normalizeFields tpl) (.dict fkvs)) := by
  have hval := validateData_structural ts kvs fkvs tpl hf ht hp hk htr hlook
  have hmE : ¬(missingOf (normalizeFields tpl) (.dict fkvs)).isEmpty := by
    simpa [List.isEmpty_iff] using hm
  constructor
  · rw [hval, if_pos (Or.inl hmE)]
  · unfold VErr.message
    rw [if_neg (by simpa [List.isEmpty_iff] using hm),
      if_neg (by simpa [List.isEmpty_iff] using hb)]
    simp only [List.cons_append, List.nil_append, joinSep]
    exact (String.append_assoc _ _ _).symm

/-- C2 witness: a candidate that both omits the required `steps` value and
supplies the undeclared dropdown option `Mid` receives one joint report
holding both violation families. -/
theorem validator_joint_witness :
    validateData comboTpls candCombo =
      .error (.fieldViolations
        (missingOf (normalizeFields comboTpl) (.dict [("severity", .str "Mid")]))
        (badOptionsOf (normalizeFields comboTpl) (.dict [("severity", .str "Mid")]))) ∧
    (VErr.fieldViolations
        (missingOf (normalizeFields comboTpl) (.dict [("severity", .str "Mid")]))
        (badOptionsOf (normalizeFields comboTpl) (.dict [("severity", .str "Mid")]))).message =
      "missing required fields: "
        ++ joinSep ", " (missingOf (normalizeFields comboTpl) (.dict [("severity", .str "Mid")]))
        ++ "; " ++ "invalid option values: "
        ++ joinSep "; " (badOptionsOf (normalizeFields comboTpl) (.dict [("severity", .str "Mid")])) :=
  validator_joint_field_violations comboTpls _ _ comboTpl rfl rfl rfl rfl rfl rfl
    (by decide) (by decide)

/-- C10 counterexample: with exactly one provider configured (OpenAI) but
its package not importable, `_select_single_provider` exits fatally with
code 2 instead of returning the provider, so single-configuration alone does
not guarantee a returned provider. -/
theorem provider_import_counterexample :
    configuredProviders envOnlyOpenAI = ["openai"] ∧
    select_single_provider envOnlyOpenAI [] = .error 2 :=
  ⟨rfl, rfl⟩

/-- C10 (amended): zero configured providers exit with code 2, two or more
configured providers exit with code 2, and exactly one configured provider
is returned provided its required package is importable (a missing package
is likewise fatal with exit code 2). -/
theorem provider_selection (env : String → Option String) (importable : List String) :
    (configuredProviders env = [] → select_single_provider env importable = .error 2) ∧
    (2 ≤ (configuredProviders env).length → select_single_provider env importable = .error 2) ∧
    (∀ p, configuredProviders env = [p] → importOk importable p = true →
      select_single_provider env importable = .ok p) := by
  refine ⟨?_, ?_, ?_⟩
  · intro h
    unfold select_single_provider
    simp [h]
  · intro h
    unfold select_single_provider
    rw [if_neg (by omega), if_pos (by omega)]
  · intro p h himp
    unfold select_single_provider
    simp [h, himp]

/-- C10 witness: with only `OPENAI_API_KEY` set and the `openai` package
importable, the selected provider is returned. -/
theorem provider_selection_witness :
    select_single_provider envOnlyOpenAI ["openai"] = .ok "openai" :=
  (provider_selection envOnlyOpenAI ["openai"]).2.2 "openai" rfl rfl

/-- C3 counterexample: the candidate with type `Bug` and priority `P0` —
both outside the literal closed sets — is fully accepted: validation passes
and the final result lowercases them to `bug`/`p0`, so a type outside the
set is not fatal as stated, and a priority outside the set is not coerced to
`p2`; the sets are compared only after lowercasing. -/
theorem case_sensitivity_counterexample :
    ("Bug" ∉ allowedTypes) ∧ ("P0" ∉ allowedPriorities) ∧
    validateData stepsTpls candCase = .ok candCase ∧
    buildStructured candCase "orig" stepsTpls = .ok
      { itype := "bug", prio := "p0", labelsCsv := "bug,needs-triage",
        title := "orig", templateKey := "bug_report",
        fields := .dict [("steps", .str "do")] } :=
  ⟨by decide, by decide, rfl, rfl⟩

/-- C3 (amended): values are stringified and lowercased first; a priority
whose lowercased value is present but outside `p0..p4` is coerced to `p2`
and never causes rejection, while a missing type is a validation failure and
a type whose lowercased value is outside the closed set is fatal at result
construction; on the scenario candidate the validator reports exactly the
missing `steps` violation (nothing about priority) and the coercion yields
`p2`. -/
theorem priority_coercion_type_fatal :
    validateData stepsTpls candScenario = .error (.fieldViolations ["steps"] []) ∧
    coercePriority candScenario = "p2" ∧
    (∀ d : PyVal, pyLower (pyStr (pyGetD d "priority" (.str "p2"))) ∉ allowedPriorities →
      coercePriority d = "p2") ∧
    (∀ (ts : Templates) (kvs fkvs : List (String × PyVal)),
      pyGet (.dict kvs) "fields" = .dict fkvs →
      hasKey (.dict kvs) "type" = false →
      validateData ts (.dict kvs) = .error .missingTypeOrPriority) ∧
    (∀ (d : PyVal) (title : String) (ts : Templates),
      pyLower (pyStr (pyGetD d "type" (.str "feature"))) ∉ allowedTypes →
      buildStructured d title ts =
        .error (.invalidTypeFinal (pyLower (pyStr (pyGetD d "type" (.str "feature")))))) := by
  refine ⟨rfl, rfl, ?_, ?_, ?_⟩
  · intro d h
    unfold coercePriority
    rw [if_neg (fun hc => h (by simpa using hc))]
  · intro ts kvs fkvs hf ht0
    unfold validateData
    rw [hf]
    simp [ht0]
  · intro d title ts h
    unfold buildStructured
    rw [if_pos (show ¬(allowedTypes.contains
        (pyLower (pyStr (pyGetD d "type" (.str "feature")))) = true) from
      fun hc => h (by simpa using hc))]

/-- C3 witness: a priority `p7` is coerced to `p2`; a candidate without a
`type` key fails validation; a candidate whose type lowercases to `task` is
rejected fatally at result construction. -/
theorem priority_coercion_witness :
    coercePriority (.dict [("priority", .str "p7")]) = "p2" ∧
    validateData stepsTpls (.dict [("fields", .dict []), ("priority", .str "p1")]) =
      .error .missingTypeOrPriority ∧
    buildStructured (.dict [("type", .str "Task")]) "t" stepsTpls =
      .error (.invalidTypeFinal "task") :=
  ⟨priority_coercion_type_fatal.2.2.1 (.dict [("priority", .str "p7")]) (by decide),
   priority_coercion_type_fatal.2.2.2.1 stepsTpls
     [("fields", .dict []), ("priority", .str "p1")] [] rfl rfl,
   priority_coercion_type_fatal.2.2.2.2 (.dict [("type", .str "Task")]) "t" stepsTpls
     (by decide)⟩

/-- C4: the retry loop makes at most three attempts — its result depends on
the oracle only through attempts 1..3 — and when all three attempts fail
(whether by transport error, empty reply, parse failure, or validation
failure) it ends with the terminal `RuntimeError` wrapping the third
failure diagnostics of that attempt, never a synthesized default classification. -/
theorem retry_budget_three_attempts (o o2 : Nat → Except String String)
    (parse : String → Except String PyVal) (ts : Templates)
    (hagree : ∀ k, 1 ≤ k → k ≤ 3 → o k = o2 k)
    (hfail : ∀ k, 1 ≤ k → k ≤ 3 → ∃ e, runAttemptOutcome o parse ts k = .error e) :
    classifyLoop o parse ts = classifyLoop o2 parse ts ∧
    runAttemptOutcome o parse ts 3 = .error (lastErrOf o parse ts) ∧
    classifyLoop o parse ts = .error (.exhausted (lastErrOf o parse ts)) ∧
    (VErr.exhausted (lastErrOf o parse ts)).message =
      "Failed to obtain structured response after retries: "
        ++ (lastErrOf o parse ts).message := by
  obtain ⟨e1, h1⟩ := hfail 1 (by omega) (by omega)
  obtain ⟨e2, h2⟩ := hfail 2 (by omega) (by omega)
  obtain ⟨e3, h3⟩ := hfail 3 (by omega) (by omega)
  have hlast : lastErrOf o parse ts = e3 := by
    unfold lastErrOf
    rw [h3]
  have r1 := runAttemptOutcome_congr o o2 parse ts 1 (hagree 1 (by omega) (by omega))
  have r2 := runAttemptOutcome_congr o o2 parse ts 2 (hagree 2 (by omega) (by omega))
  have r3 := runAttemptOutcome_congr o o2 parse ts 3 (hagree 3 (by omega) (by omega))
  refine ⟨?_, ?_, ?_, rfl⟩
  · unfold classifyLoop loopTail2 loopTail3
    rw [r1, r2, r3]
  · rw [hlast]
    exact h3
  · unfold classifyLoop loopTail2 loopTail3
    rw [h1, h2, h3, hlast]

/-- C4 witness: an oracle that three times replies with prose containing no
JSON object exhausts the budget and the loop raises the terminal error
wrapping the `No JSON object found` failure of the third attempt; the result
agrees with the oracle that differs only from attempt 4 on, showing attempt
4 is never consulted. -/
theorem retry_budget_witness :
    classifyLoop proseOracle failParse [] = classifyLoop proseOracle4 failParse [] ∧
    runAttemptOutcome proseOracle failParse [] 3 =
      .error (lastErrOf proseOracle failParse []) ∧
    classifyLoop proseOracle failParse [] =
      .error (.exhausted (lastErrOf proseOracle failParse [])) ∧
    (VErr.exhausted (lastErrOf proseOracle failParse [])).message =
      "Failed to obtain structured response after retries: "
        ++ (lastErrOf proseOracle failParse []).message :=
  retry_budget_three_attempts proseOracle proseOracle4 failParse []
    (fun k _ hk3 => by simp [proseOracle, proseOracle4, hk3])
    (fun k _ _ => ⟨.noJson, rfl⟩)

/-- C5 counterexample: the required `steps` field supplied as JSON `null` is
not a string value at all, yet the candidate validates, because the check
stringifies the value first and `str(None)` is the non-empty string `None`;
the rule of the claim that a required field lacking a non-empty string value is
always a reported violation fails here. -/
theorem required_null_counterexample :
    pyGet (pyGet candNull "fields") "steps" = PyVal.none ∧
    (normalizeFields stepsTpl).map (fun f => (f.key, f.required)) = [("steps", true)] ∧
    pyTrim (pyStr PyVal.none) = "None" ∧
    validateData stepsTpls candNull = .ok candNull :=
  ⟨rfl, rfl, rfl, rfl⟩

/-- C5 (amended): the supplied value of a required non-markdown descriptor is
stringified and stripped (an absent key defaulting to the empty string);
whenever that converted value is empty, validation reports a violation whose
missing-field list names the key of that descriptor, and never returns the
candidate as validated. -/
theorem required_field_violation (ts : Templates) (kvs fkvs : List (String × PyVal))
    (tpl : Template) (entry : FieldEntry)
    (hf : pyGet (.dict kvs) "fields" = .dict fkvs)
    (ht : hasKey (.dict kvs) "type" = true)
    (hp : hasKey (.dict kvs) "priority" = true)
    (hk : hasKey (.dict kvs) "template_key" = true)
    (htr : truthy (pyGet (.dict kvs) "template_key") = true)
    (hlook : lookupT ts (pyStr (pyGet (.dict kvs) "template_key")) = some tpl)
    (hmem : entry ∈ normalizeFields tpl)
    (hreq : entry.required = true)
    (hmd : entry.ftype ≠ "markdown")
    (hempty : pyTrim (pyStr (pyGetD (.dict fkvs) entry.key (.str ""))) = "") :
    (validateData ts (.dict kvs) =
        .error (.fieldViolations (missingOf (normalizeFields tpl) (.dict fkvs))
          (badOptionsOf (normalizeFields tpl) (.dict fkvs))) ∧
      entry.key ∈ missingOf (normalizeFields tpl) (.dict fkvs)) ∧
    ∀ x, validateData ts (.dict kvs) ≠ .ok x := by
  have hmem2 : entry.key ∈ missingOf (normalizeFields tpl) (.dict fkvs) := by
    unfold missingOf requiredKeys
    refine List.mem_filter.mpr ⟨?_, ?_⟩
    · exact List.mem_map.mpr ⟨entry, List.mem_filter.mpr ⟨hmem, by simp [hreq, hmd]⟩, rfl⟩
    · simpa using hempty
  have hne : ¬(missingOf (normalizeFields tpl) (.dict fkvs)).isEmpty := by
    simp only [List.isEmpty_iff]
    exact List.ne_nil_of_mem hmem2
  have hval := validateData_structural ts kvs fkvs tpl hf ht hp hk htr hlook
  rw [if_pos (Or.inl hne)] at hval
  exact ⟨⟨hval, hmem2⟩, fun x hx => by
    rw [hval] at hx
    exact Except.noConfusion hx⟩

/-- C5 witness: a candidate omitting `steps` entirely is rejected with a
violation naming `steps`. -/
theorem required_field_witness :
    (validateData stepsTpls candMissingSteps =
        .error (.fieldViolations (missingOf (normalizeFields stepsTpl)
            (.dict [("other", .str "x")]))
          (badOptionsOf (normalizeFields stepsTpl) (.dict [("other", .str "x")]))) ∧
      "steps" ∈ missingOf (normalizeFields stepsTpl) (.dict [("other", .str "x")])) ∧
    ∀ x, validateData stepsTpls candMissingSteps ≠ .ok x :=
  required_field_violation stepsTpls
    [("type", .str "bug"), ("priority", .str "p1"),
     ("template_key", .str "bug_report"), ("fields", .dict [("other", .str "x")])]
    [("other", .str "x")] stepsTpl
    { ftype := "textarea", key := "steps", label := "Steps to Reproduce", required := true }
    rfl rfl rfl rfl rfl rfl (by decide) rfl (by decide) rfl

/-- C6 counterexample: the dropdown value `"A "` differs from every declared
option (`"A "` is not the string `"A"`), yet the field validates, because
the supplied value is stripped of surrounding whitespace before the
case-sensitive comparison. -/
theorem dropdown_strip_counterexample :
    pyGet (pyGet candPadded "fields") "choice" = .str "A " ∧
    (byKey (normalizeFields dropTpl) "choice").map FieldEntry.options = some ["A"] ∧
    ("A " ∉ (["A"] : List String)) ∧
    validateData dropTpls candPadded = .ok candPadded :=
  ⟨rfl, rfl, by decide, rfl⟩

/-- C6 (amended): a supplied field contributes no option violation exactly
when the condition of its descriptor holds — for a dropdown, the option list is
empty or the stripped stringified value equals one of the options
case-sensitively; for checkboxes, every normalized token (a list used as is,
a string comma-split with stripped tokens) equals one of the options, or the
option list is empty. -/
theorem option_check_characterization (fs : List FieldEntry) (k : String) (v : PyVal) :
    badFor fs k v = [] ↔ fieldValueOk fs k v := by
  unfold badFor fieldValueOk
  cases h : byKey fs k with
  | none => simp
  | some meta =>
    rw [List.append_eq_nil]
    apply and_congr
    · rw [ite_singleton_eq_nil]
      constructor
      · intro h1 hd
        by_cases ho : meta.options = []
        · exact Or.inl ho
        · refine Or.inr ?_
          by_contra hc
          exact h1 ⟨hd, by simpa [List.isEmpty_iff] using ho, fun hmem => hc (List.elem_iff.mp hmem)⟩
      · rintro hD ⟨hd, hne, hnc⟩
        rcases hD hd with ho | hm
        · exact hne (by simpa [List.isEmpty_iff] using ho)
        · exact hnc (List.elem_iff.mpr hm)
    · by_cases hk : meta.ftype = "checkboxes"
      · rw [if_pos hk, ite_singleton_eq_nil, not_not, List.isEmpty_iff,
          List.filter_eq_nil_iff]
        constructor
        · intro hp _ x hx
          by_cases ho : meta.options = []
          · exact Or.inl ho
          · refine Or.inr ?_
            have hnp := hp x hx
            simp only [decide_eq_true_eq, not_and, not_not] at hnp
            have hany := hnp (by simpa [List.isEmpty_iff] using ho)
            obtain ⟨o, ho2, heq⟩ := List.any_eq_true.mp hany
            exact ⟨o, ho2, (pyEqStr_iff x o).mp heq⟩
        · intro hK x hx
          simp only [decide_eq_true_eq, not_and, not_not]
          intro hne
          rcases hK hk x hx with ho | ⟨o, ho2, heq⟩
          · exact absurd (by simpa [List.isEmpty_iff] using ho) hne
          · exact List.any_eq_true.mpr ⟨o, ho2, (pyEqStr_iff x o).mpr heq⟩
      · rw [if_neg hk]
        simp [hk]

/-- C7: when the reply text holds no brace-delimited substring that parses
as an object (for any parser that returns objects on brace-led inputs when
it succeeds), the attempt fails with the single synthetic violation — no
JSON object found, or the underlying parse error — computed before the
schema validator; the result is independent of the template set (the
schema checks of the validator are never consulted), and the loop then simply
moves on to its second attempt, the failure having consumed exactly one unit
of the budget. -/
theorem parse_failure_synthetic_violation (parse : String → Except String PyVal)
    (ts1 ts2 : Templates) (reply : String)
    (hsound : ∀ (sub : String) (v : PyVal), sub.data.head? = some lb →
      parse sub = .ok v → ∃ kvs, v = .dict kvs)
    (hnone : ∀ sub : String,
      (∃ pre post : List Char, reply.data = pre ++ sub.data ++ post) →
      sub.data.head? = some lb → sub.data.getLast? = some rb →
      ∀ kvs : List (String × PyVal), parse sub ≠ .ok (.dict kvs)) :
    processReply parse ts1 reply = .error (syntheticErrOf parse reply) ∧
    processReply parse ts1 reply = processReply parse ts2 reply ∧
    (∀ (o : Nat → Except String String), o 1 = .ok reply → reply ≠ "" →
      classifyLoop o parse ts1 = loopTail2 o parse ts1) := by
  cases hx : extractBrace reply with
  | none =>
    have hPR : ∀ ts : Templates, processReply parse ts reply = .error .noJson := by
      intro ts
      unfold processReply
      rw [hx]
    have hSE : syntheticErrOf parse reply = .noJson := by
      unfold syntheticErrOf
      rw [hx]
    refine ⟨by rw [hPR, hSE], by rw [hPR, hPR], ?_⟩
    intro o h1 hne
    have hrun : runAttemptOutcome o parse ts1 1 = .error .noJson := by
      unfold runAttemptOutcome
      rw [h1]
      show (if reply = "" then Except.error VErr.emptyResponse
        else processReply parse ts1 reply) = Except.error VErr.noJson
      rw [if_neg hne]
      exact hPR ts1
    unfold classifyLoop
    rw [hrun]
  | some g =>
    obtain ⟨hsub, hhead, hlast⟩ := extractBrace_parts reply g hx
    cases hp : parse g with
    | ok v =>
      obtain ⟨kvs, rfl⟩ := hsound g v hhead hp
      exact absurd hp (hnone g hsub hhead hlast kvs)
    | error m =>
      have hPR : ∀ ts : Templates, processReply parse ts reply = .error (.jsonParse m) := by
        intro ts
        unfold processReply
        rw [hx]
        show (match parse g with
          | Except.error m => Except.error (VErr.jsonParse m)
          | Except.ok d => validateData ts d) = Except.error (VErr.jsonParse m)
        rw [hp]
      have hSE : syntheticErrOf parse reply = .jsonParse m := by
        unfold syntheticErrOf
        rw [hx]
        show (match parse g with
          | Except.error m => VErr.jsonParse m
          | Except.ok _ => VErr.noJson) = VErr.jsonParse m
        rw [hp]
      refine ⟨by rw [hPR, hSE], by rw [hPR, hPR], ?_⟩
      intro o h1 hne
      have hrun : runAttemptOutcome o parse ts1 1 = .error (.jsonParse m) := by
        unfold runAttemptOutcome
        rw [h1]
        show (if reply = "" then Except.error VErr.emptyResponse
          else processReply parse ts1 reply) = Except.error (VErr.jsonParse m)
        rw [if_neg hne]
        exact hPR ts1
      unfold classifyLoop
      rw [hrun]

/-- C7 witness: a prose reply with no braces, against a parser that always
fails, yields the synthetic `No JSON object found` violation, is independent
of the template set, and sends the loop to attempt two. -/
theorem parse_failure_witness :
    processReply failParse [] "The model reply contains prose only." =
      .error (syntheticErrOf failParse "The model reply contains prose only.") ∧
    processReply failParse [] "The model reply contains prose only." =
      processReply failParse stepsTpls "The model reply contains prose only." ∧
    (∀ (o : Nat → Except String String),
      o 1 = .ok "The model reply contains prose only." →
      "The model reply contains prose only." ≠ "" →
      classifyLoop o failParse [] = loopTail2 o failParse []) :=
  parse_failure_synthetic_violation failParse [] stepsTpls
    "The model reply contains prose only."
    (fun sub v _ hp => absurd hp (by simp [failParse]))
    (fun sub _ _ _ kvs hp => absurd hp (by simp [failParse]))

/-- C8 counterexample: a declared option that is a mapping without a label
is skipped by the renderer, so the rendered lines do not enumerate the full
declared option set — two lines for three declared options. -/
theorem checkbox_empty_label_counterexample :
    optsGap.length = 3 ∧
    checkboxLines optsGap (tokensOf (.str "A")) = ["- [x] A", "- [ ] C"] ∧
    (checkboxLines optsGap (tokensOf (.str "A"))).length = 2 :=
  ⟨rfl, rfl, rfl⟩

/-- C8 (amended): for every checkboxes option list whose derived labels are
all non-empty, the renderer emits exactly one line per declared option in
declared order, checked exactly when the label is in the selected list
(Python equality against the possibly comma-split value); options with an
absent or empty label are skipped.  On the scenario — options A, B, C with
supplied value `A, C` — A and C are checked, B unchecked, all three lines
present under the heading. -/
theorem checkbox_render_enumeration (opts : List RawOpt) (sel : List PyVal)
    (h : ∀ o ∈ opts, optionRenderLabel o ≠ "") :
    checkboxLines opts sel = opts.map (fun o =>
      (if sel.any (fun x => pyEqStr x (optionRenderLabel o)) then "- [x] " else "- [ ] ")
        ++ optionRenderLabel o) ∧
    renderCheckboxSection "Check" optsABC (.str "A, C") =
      "## Check\n- [x] A\n- [ ] B\n- [x] C" := by
  refine ⟨?_, rfl⟩
  induction opts with
  | nil => rfl
  | cons o rest ih =>
    have ho : optionRenderLabel o ≠ "" := h o (List.mem_cons_self o rest)
    have hrest := ih (fun o2 h2 => h o2 (List.mem_cons_of_mem o h2))
    simp only [checkboxLines, List.filterMap_cons, List.map_cons] at hrest ⊢
    rw [if_neg ho]
    rw [hrest]

/-- C8 witness: the scenario instance — options A, B, C with value `A, C` —
renders one line per option, A and C checked, B unchecked. -/
theorem checkbox_render_witness :
    checkboxLines optsABC (tokensOf (.str "A, C")) = optsABC.map (fun o =>
      (if (tokensOf (.str "A, C")).any (fun x => pyEqStr x (optionRenderLabel o))
        then "- [x] " else "- [ ] ") ++ optionRenderLabel o) ∧
    renderCheckboxSection "Check" optsABC (.str "A, C") =
      "## Check\n- [x] A\n- [ ] B\n- [x] C" :=
  checkbox_render_enumeration optsABC (tokensOf (.str "A, C")) (by decide)

/-- C9 counterexample: for the label `A!` (no explicit id) the claimed
derivation — lowercase, collapse non-alphanumeric runs to one separator —
gives `a_`, but the normalizer also strips leading/trailing separators and
produces `a`; and the empty mapping among the options is not skipped but
contributes an empty option label. -/
theorem slug_strip_counterexample :
    normItems [itemBang] 0 =
      [{ ftype := "dropdown", key := "a", label := "A!", required := false,
         options := [""] }] ∧
    slugClaim "A!" = "a_" ∧
    slugify "A!" = "a" ∧
    ("a" : String) ≠ "a_" :=
  ⟨rfl, rfl, rfl, by decide⟩

/-- C9 (amended): the normalizer equals its specification — key from the
explicit non-empty identifier, else the label slug (lowercased,
non-alphanumeric runs collapsed to one separator, leading/trailing
separators stripped) with positional fallback `f_<index>` when empty;
required from the nested validation flag (absent meaning false); options as
the ordered labels of mapping entries (a label-less mapping contributing the
empty string, non-mapping entries skipped) — and colliding keys derived from
identical labels are kept duplicated, not deduplicated. -/
theorem normalizer_characterization :
    (∀ (body : List RawItem) (n : Nat), normItems body n = normItemsSpec body n) ∧
    (normItems [itemDup, itemDup] 0).map FieldEntry.key = ["same_label", "same_label"] := by
  refine ⟨?_, rfl⟩
  intro body
  induction body with
  | nil => intro n; rfl
  | cons item rest ih =>
    intro n
    have htail := ih (n + 1)
    cases hid : item.idO with
    | none =>
      by_cases hm : item.rtype = "markdown"
      · simp [normItems, normItemsSpec, hm, hid, orS, htail]
      · by_cases hdc : item.rtype = "dropdown" ∨ item.rtype = "checkboxes"
        · simp [normItems, normItemsSpec, hm, hdc, hid, orS, keySpecAmended,
            slugOrFallback, optionLabels, labelOfItem, htail]
        · simp [normItems, normItemsSpec, hm, hdc, hid, orS, keySpecAmended,
            slugOrFallback, labelOfItem, htail]
    | some i =>
      by_cases hm : item.rtype = "markdown"
      · simp [normItems, normItemsSpec, hm, hid, orS, htail]
      · by_cases hdc : item.rtype = "dropdown" ∨ item.rtype = "checkboxes"
        · simp [normItems, normItemsSpec, hm, hdc, hid, orS, keySpecAmended,
            slugOrFallback, optionLabels, labelOfItem, htail]
        · simp [normItems, normItemsSpec, hm, hdc, hid, orS, keySpecAmended,
            slugOrFallback, labelOfItem, htail]

end Keira
